import Mathlib

set_option maxRecDepth 10000

/-!
Shallow embedding of the image-extraction pipeline of the
`pdf-images-extractor` repository (files `src/extract.py`, `src/config.py`,
`src/utils.py`, `src/app.py`).

Modelling conventions:
* Machine floats of the source appear in two places: the aspect-ratio test
  `0.8 <= width / height <= 1.2` in `_is_logo_like`, and the accumulators
  `image_size_kb = len / 1024` and `total_size_mb`.  The comparisons are
  modelled by exact rational arithmetic: `len / 1024 < 1` is exact in
  binary floating point (division by a power of two), and the aspect-ratio
  comparison agrees with the exact rational one for every image dimension
  a raster decoder can produce (the nearest rational `w / h` to `0.8` or
  `1.2` with `h` below 2^50 is far outside one ulp of the double literal).
* External effects (PyMuPDF decoding, PIL decoding, the file system) are
  modelled by oracle fields of the input: each embedded image records what
  `pdf.extract_image` returns for it, what PIL would decode its bytes to,
  and whether the file write would raise.  The control flow of
  `extract.py` over those answers is translated line by line.
-/

namespace PdfExtract

/-- Result of PIL's `Image.open` on the raw bytes (`src/extract.py:185-188`):
the pixel dimensions and the mode string (`"RGB"`, `"RGBA"`, `"LA"`, `"P"`, ...). -/
structure DecodedImage where
  width : Nat
  height : Nat
  mode : String
deriving DecidableEq, Repr

/-- One embedded image reference on a page, together with the oracle answers
for the external calls made while processing it (`src/extract.py:126-159`):
`extractErr` - `pdf.extract_image(xref)` raises;
`extractEmpty` - it returns a falsy value (`src/extract.py:129`);
`good data ext decoded saveFails` - it returns bytes `data` and extension
`ext`; `decoded` is PIL's view of the bytes (`none` when `Image.open`
raises, `src/extract.py:214-216`); `saveFails` tells whether writing the
output file raises. -/
inductive XrefImage where
  | extractErr : XrefImage
  | extractEmpty : XrefImage
  | good (data : List Nat) (ext : String) (decoded : Option DecodedImage) (saveFails : Bool) : XrefImage
deriving DecidableEq, Repr

/-- One page of the document, as seen by `_extract_images_from_page`
(`src/extract.py:93-112`): either `page.get_images(full=True)` raises
(`enumErr`, caught at `src/extract.py:111`), or it yields a list of image
references. -/
inductive Page where
  | enumErr : Page
  | imgs (xs : List XrefImage) : Page
deriving DecidableEq, Repr

/-- A PDF document whose open succeeded is its list of pages. -/
abbrev Pdf := List Page

/-- `SUPPORTED_IMAGE_FORMATS` from `src/config.py:21`. -/
def SUPPORTED_IMAGE_FORMATS : List String := ["jpeg", "jpg", "png", "gif", "bmp", "tiff"]

/-- `MIN_IMAGE_SIZE_KB` from `src/config.py:23`. -/
def MIN_IMAGE_SIZE_KB : Nat := 1

/-- The `self.stats` dictionary of `PDFImageExtractor` (`src/extract.py:31-38`). -/
structure Stats where
  total_pages : Nat
  total_images : Nat
  successful_extractions : Nat
  failed_extractions : Nat
  total_size_mb : ℚ
  filtered_logos : Nat
deriving DecidableEq, Repr

/-- The mutable state of a `PDFImageExtractor` instance:
`self.extracted_images` (output file names, `src/extract.py:30,162`) and
`self.stats`. -/
structure ExtractorState where
  extracted_images : List String
  stats : Stats
deriving DecidableEq, Repr

/-- State built by `PDFImageExtractor.__init__` (`src/extract.py:28-38`):
empty image list, all counters zero. -/
def initState : ExtractorState :=
  { extracted_images := []
    stats := { total_pages := 0, total_images := 0, successful_extractions := 0,
               failed_extractions := 0, total_size_mb := 0, filtered_logos := 0 } }

/-- `_is_logo_like` (`src/extract.py:173-216`), applied to the decode result
of the bytes.  `none` models `Image.open` raising: the handler at
`src/extract.py:214-216` returns `False`.  The four tests follow the source
order; the aspect-ratio comparison `0.8 <= w / h <= 1.2` is stated over the
naturals as `4 * h <= 5 * w and 5 * w <= 6 * h` (the division at
`src/extract.py:195` only runs when `h >= 100`, so it never divides by
zero and the rational form is exact). -/
def isLogoLike (len : Nat) : Option DecodedImage → Bool
  | none => false
  | some img =>
    if img.width < 100 || img.height < 100 then true
    else if 4 * img.height ≤ 5 * img.width && 5 * img.width ≤ 6 * img.height then true
    else if img.mode = "RGBA" || img.mode = "LA" || img.mode = "P" then true
    else if len < 10 * 1024 then true
    else false

/-- What processing one image reference does, before the counter updates:
`silentSkip` - an early `return` with no counter touched
(`src/extract.py:129-131,136-139,141-145`);
`filtered` - the logo branch (`src/extract.py:148-151`);
`errored` - an exception re-raised as `ImageExtractionError`
(`src/extract.py:169-171`), counted by the caller (`src/extract.py:107-109`);
`save ext data` - the bytes reach the file write (`src/extract.py:153-165`). -/
inductive ImgOutcome where
  | silentSkip : ImgOutcome
  | filtered : ImgOutcome
  | errored : ImgOutcome
  | save (ext : String) (data : List Nat) : ImgOutcome
deriving DecidableEq, Repr

/-- The `.lower()` applied to the extension at `src/extract.py:134`, stated
character by character so it computes by structural recursion (the format
names involved are ASCII). -/
def lowerStr (s : String) : String := String.mk (s.data.map Char.toLower)

/-- The decision chain of `_extract_single_image` (`src/extract.py:114-171`):
lower-case the extension (`src/extract.py:134`), reject unsupported formats
(`src/extract.py:137-139`), reject images below `MIN_IMAGE_SIZE_KB`
(`src/extract.py:142-145`, `len(image_bytes) / 1024 < 1` iff
`len < 1024`), filter logos when asked (`src/extract.py:148-151`), then
write.  A raising `pdf.extract_image` or file write becomes `errored`. -/
def extractSingleImage (filterLogos : Bool) : XrefImage → ImgOutcome
  | .extractErr => .errored
  | .extractEmpty => .silentSkip
  | .good data ext decoded saveFails =>
    let e := lowerStr ext
    if e ∈ SUPPORTED_IMAGE_FORMATS then
      if data.length < MIN_IMAGE_SIZE_KB * 1024 then .silentSkip
      else if filterLogos && isLogoLike data.length decoded then .filtered
      else if saveFails then .errored
      else .save e data
    else .silentSkip

/-- The output file name `page{N}_img{M}.{ext}` built at `src/extract.py:154`
from 0-based page and image indices. -/
def imageFilename (pageIndex imgIndex : Nat) (ext : String) : String :=
  "page" ++ toString (pageIndex + 1) ++ "_img" ++ toString (imgIndex + 1) ++ "." ++ ext

/-- The file write an outcome performs (`src/extract.py:158-159`): only the
`save` branch writes, to the deterministic name. -/
def imageWrite (pageIndex imgIndex : Nat) : ImgOutcome → List (String × List Nat)
  | .save ext data => [(imageFilename pageIndex imgIndex ext, data)]
  | _ => []

/-- Counter and list updates an outcome causes on the extractor state:
`filtered` bumps `filtered_logos` (`src/extract.py:150`), `errored` bumps
`failed_extractions` in the caller's handler (`src/extract.py:109`), `save`
appends the path and bumps `successful_extractions`, `total_images` and
`total_size_mb` (`src/extract.py:162-165`). -/
def applyOutcome (pageIndex imgIndex : Nat) (st : ExtractorState) : ImgOutcome → ExtractorState
  | .silentSkip => st
  | .filtered =>
    { st with stats := { st.stats with filtered_logos := st.stats.filtered_logos + 1 } }
  | .errored =>
    { st with stats := { st.stats with failed_extractions := st.stats.failed_extractions + 1 } }
  | .save ext data =>
    { st with
      extracted_images := st.extracted_images ++ [imageFilename pageIndex imgIndex ext]
      stats := { st.stats with
        successful_extractions := st.stats.successful_extractions + 1
        total_images := st.stats.total_images + 1
        total_size_mb := st.stats.total_size_mb + (data.length : ℚ) / (1024 * 1024) } }

/-- The per-image loop of `_extract_images_from_page`
(`src/extract.py:104-109`): each reference is processed in order, an
exception from one image is caught, counted and the loop continues. -/
def processImages (filterLogos : Bool) (pageIndex imgIndex : Nat)
    (st : ExtractorState) : List XrefImage → ExtractorState
  | [] => st
  | x :: rest =>
    processImages filterLogos pageIndex (imgIndex + 1)
      (applyOutcome pageIndex imgIndex st (extractSingleImage filterLogos x)) rest

/-- `_extract_images_from_page` (`src/extract.py:83-112`): a raising
`page.get_images` is caught at page level and touches nothing. -/
def processPage (filterLogos : Bool) (pageIndex : Nat) (st : ExtractorState) : Page → ExtractorState
  | .enumErr => st
  | .imgs xs => processImages filterLogos pageIndex 0 st xs

/-- The page loop of `extract_images_from_pdf` (`src/extract.py:69-74`). -/
def processPages (filterLogos : Bool) (pageIndex : Nat)
    (st : ExtractorState) : List Page → ExtractorState
  | [] => st
  | p :: rest =>
    processPages filterLogos (pageIndex + 1) (processPage filterLogos pageIndex st p) rest

/-- `PDFImageExtractor.extract_images_from_pdf` on a document whose open
succeeded (`src/extract.py:64-77`): `self.stats["total_pages"]` is
overwritten with the page count (`src/extract.py:65`) — nothing else is
reset — then every page is processed. -/
def extractImagesFromPdf (pdf : Pdf) (filterLogos : Bool) (st : ExtractorState) : ExtractorState :=
  processPages filterLogos 0
    { st with stats := { st.stats with total_pages := pdf.length } } pdf

/-- The document-level error of `extract_images_from_pdf`
(`src/extract.py:60-61,79-81`): a missing file or a raising `fitz.open`. -/
inductive PdfError where
  | processingError : PdfError
deriving DecidableEq, Repr

/-- `extract_images_from_pdf` with its document-level exception behaviour
(`src/extract.py:56-81`): `none` models a path that does not exist or a
document `fitz.open` rejects, turned into `PDFProcessingError`; on success
the method returns `self.extracted_images` (`src/extract.py:77`). -/
def extractImagesFromPdfE (doc : Option Pdf) (filterLogos : Bool)
    (st : ExtractorState) : Except PdfError (ExtractorState × List String) :=
  match doc with
  | none => .error .processingError
  | some pdf =>
    let st' := extractImagesFromPdf pdf filterLogos st
    .ok (st', st'.extracted_images)

/-! ### Observable events of one run (progress callback vs. image processing) -/

/-- Observable events of a run: a progress-callback invocation with its two
arguments (`src/extract.py:71`), or the processing of one image reference
(the body of the loop at `src/extract.py:104-109`). -/
inductive Event where
  | callback (current total : Nat) : Event
  | image (pageIndex imgIndex : Nat) : Event
deriving DecidableEq, Repr

/-- Recognizes a callback event. -/
def isCallbackEv : Event → Bool
  | .callback _ _ => true
  | .image _ _ => false

/-- The image-processing events one page emits, in loop order
(`src/extract.py:104`): one per enumerated reference, none when
`page.get_images` raised. -/
def pageEventsFrom (pageIndex imgIndex : Nat) : List XrefImage → List Event
  | [] => []
  | _ :: rest => Event.image pageIndex imgIndex :: pageEventsFrom pageIndex (imgIndex + 1) rest

/-- Events of one page. -/
def pageEvents (pageIndex : Nat) : Page → List Event
  | .enumErr => []
  | .imgs xs => pageEventsFrom pageIndex 0 xs

/-- The event trace of the page loop (`src/extract.py:69-74`): for each page,
when a callback is supplied it is invoked FIRST, with
`(page_index + 1, len(pdf))` (`src/extract.py:70-71`), and THEN the page's
images are processed (`src/extract.py:73-74`). -/
def traceFrom (total : Nat) (hasCallback : Bool) (pageIndex : Nat) : List Page → List Event
  | [] => []
  | p :: rest =>
    (if hasCallback then [Event.callback (pageIndex + 1) total] else [])
      ++ pageEvents pageIndex p ++ traceFrom total hasCallback (pageIndex + 1) rest

/-- The full event trace of `extract_images_from_pdf`. -/
def runTrace (pdf : Pdf) (hasCallback : Bool) : List Event :=
  traceFrom pdf.length hasCallback 0 pdf

/-- Modelled from the spec's words for the callback claim: the trace in which
each page's callback invocation comes AFTER that page's images have been
processed.  Used only to compare the claimed ordering with `runTrace`. -/
def specTraceCallbackAfter (total : Nat) (pageIndex : Nat) : List Page → List Event
  | [] => []
  | p :: rest =>
    pageEvents pageIndex p ++ [Event.callback (pageIndex + 1) total]
      ++ specTraceCallbackAfter total (pageIndex + 1) rest

/-- The trace shape with each page's callback invocation BEFORE that page's
images, once per page, with arguments `(page number, total pages)`. -/
def traceCallbackBefore (total : Nat) (pageIndex : Nat) : List Page → List Event
  | [] => []
  | p :: rest =>
    Event.callback (pageIndex + 1) total
      :: (pageEvents pageIndex p ++ traceCallbackBefore total (pageIndex + 1) rest)

/-! ### File writes and the app-level pipeline -/

/-- The file writes emitted by one page's image loop, in order. -/
def pageWrites (filterLogos : Bool) (pageIndex imgIndex : Nat) :
    List XrefImage → List (String × List Nat)
  | [] => []
  | x :: rest =>
    imageWrite pageIndex imgIndex (extractSingleImage filterLogos x)
      ++ pageWrites filterLogos pageIndex (imgIndex + 1) rest

/-- The file writes of the whole run, page by page. -/
def pdfWritesFrom (filterLogos : Bool) (pageIndex : Nat) : List Page → List (String × List Nat)
  | [] => []
  | .enumErr :: rest => pdfWritesFrom filterLogos (pageIndex + 1) rest
  | .imgs xs :: rest =>
    pageWrites filterLogos pageIndex 0 xs ++ pdfWritesFrom filterLogos (pageIndex + 1) rest

/-- All file writes of one extraction run. -/
def pdfWrites (filterLogos : Bool) (pdf : Pdf) : List (String × List Nat) :=
  pdfWritesFrom filterLogos 0 pdf

/-- The output directory as a flat name-to-bytes map; `open(path, "wb")`
overwrites an existing file of the same name (`src/extract.py:158-159`). -/
def writeFile (folder : List (String × List Nat)) (name : String) (data : List Nat) :
    List (String × List Nat) :=
  if folder.any (fun p => p.1 = name) then
    folder.map (fun p => if p.1 = name then (name, data) else p)
  else folder ++ [(name, data)]

/-- Applies a list of writes to a folder in order. -/
def applyWrites (folder : List (String × List Nat)) : List (String × List Nat) →
    List (String × List Nat)
  | [] => folder
  | (name, data) :: rest => applyWrites (writeFile folder name data) rest

/-- One run of the app-level pipeline on an already-validated PDF
(`src/app.py:71-87`): `clear_output_folder(OUTPUT_FOLDER)` empties the
directory (`src/utils.py:54-67`), then `extract_images_with_progress`
(`src/extract.py:294-311`) runs a fresh extractor whose accepted images are
written into it. -/
def runPipeline (pdf : Pdf) (filterLogos : Bool)
    (folder : List (String × List Nat)) : List (String × List Nat) :=
  applyWrites [] (pdfWrites filterLogos pdf)

/-! ### Per-run counts, for stating additivity of the traversal -/

/-- Whether an image reference ends in the `save` branch. -/
def outcomeSaves (filterLogos : Bool) (x : XrefImage) : Bool :=
  match extractSingleImage filterLogos x with
  | .save _ _ => true
  | _ => false

/-- Whether an image reference raises (and is counted failed). -/
def outcomeFails (filterLogos : Bool) (x : XrefImage) : Bool :=
  match extractSingleImage filterLogos x with
  | .errored => true
  | _ => false

/-- Whether an image reference is filtered as a logo. -/
def outcomeFiltered (filterLogos : Bool) (x : XrefImage) : Bool :=
  match extractSingleImage filterLogos x with
  | .filtered => true
  | _ => false

/-- Number of saved images on one page. -/
def pageSaves (filterLogos : Bool) : Page → Nat
  | .enumErr => 0
  | .imgs xs => (xs.filter (outcomeSaves filterLogos)).length

/-- Number of failed images on one page. -/
def pageFails (filterLogos : Bool) : Page → Nat
  | .enumErr => 0
  | .imgs xs => (xs.filter (outcomeFails filterLogos)).length

/-- Number of filtered logos on one page. -/
def pageFiltered (filterLogos : Bool) : Page → Nat
  | .enumErr => 0
  | .imgs xs => (xs.filter (outcomeFiltered filterLogos)).length

/-- Number of saved images in the whole document. -/
def pdfSaves (filterLogos : Bool) (pdf : Pdf) : Nat :=
  (pdf.map (pageSaves filterLogos)).sum

/-- Number of failed images in the whole document. -/
def pdfFails (filterLogos : Bool) (pdf : Pdf) : Nat :=
  (pdf.map (pageFails filterLogos)).sum

/-- Number of filtered logos in the whole document. -/
def pdfFiltered (filterLogos : Bool) (pdf : Pdf) : Nat :=
  (pdf.map (pageFiltered filterLogos)).sum

/-- The output file names one page's image loop appends to
`self.extracted_images`, in order. -/
def imageNamesFrom (filterLogos : Bool) (pageIndex imgIndex : Nat) : List XrefImage → List String
  | [] => []
  | x :: rest =>
    (match extractSingleImage filterLogos x with
     | .save ext _ => [imageFilename pageIndex imgIndex ext]
     | _ => []) ++ imageNamesFrom filterLogos pageIndex (imgIndex + 1) rest

/-- Output file names of one page. -/
def pageNames (filterLogos : Bool) (pageIndex : Nat) : Page → List String
  | .enumErr => []
  | .imgs xs => imageNamesFrom filterLogos pageIndex 0 xs

/-- Output file names of the whole run, page by page. -/
def pdfNamesFrom (filterLogos : Bool) (pageIndex : Nat) : List Page → List String
  | [] => []
  | pg :: rest => pageNames filterLogos pageIndex pg ++ pdfNamesFrom filterLogos (pageIndex + 1) rest

/-- Output file names of the whole run. -/
def pdfNames (filterLogos : Bool) (pdf : Pdf) : List String :=
  pdfNamesFrom filterLogos 0 pdf

/-- Megabytes added to `total_size_mb` by one page's image loop. -/
def sizeSumImgs (filterLogos : Bool) : List XrefImage → ℚ
  | [] => 0
  | x :: rest =>
    (match extractSingleImage filterLogos x with
     | .save _ data => (data.length : ℚ) / (1024 * 1024)
     | _ => 0) + sizeSumImgs filterLogos rest

/-- Megabytes added by one page. -/
def pageSizeSum (filterLogos : Bool) : Page → ℚ
  | .enumErr => 0
  | .imgs xs => sizeSumImgs filterLogos xs

/-- Megabytes added by the whole run. -/
def pdfSizeSum (filterLogos : Bool) (pdf : Pdf) : ℚ :=
  (pdf.map (pageSizeSum filterLogos)).sum

/-- The extractor state after the run's first `k` full pages and the first
`j` images of page `k`, starting from a fresh extractor — the intermediate
states of the traversal, used to state invariants "at every point". -/
def partialRun (pdf : Pdf) (filterLogos : Bool) (k j : Nat) : ExtractorState :=
  let st0 : ExtractorState :=
    { initState with stats := { initState.stats with total_pages := pdf.length } }
  let st1 := processPages filterLogos 0 st0 (pdf.take k)
  match pdf.get? k with
  | some (.imgs xs) => processImages filterLogos k 0 st1 (xs.take j)
  | _ => st1

/-! ### The traversal is a fold: additivity lemmas -/

theorem processImages_spec (f : Bool) (xs : List XrefImage) :
    ∀ (p i : Nat) (st : ExtractorState),
    processImages f p i st xs =
      { extracted_images := st.extracted_images ++ imageNamesFrom f p i xs
        stats := { total_pages := st.stats.total_pages
                   total_images := st.stats.total_images + (xs.filter (outcomeSaves f)).length
                   successful_extractions :=
                     st.stats.successful_extractions + (xs.filter (outcomeSaves f)).length
                   failed_extractions :=
                     st.stats.failed_extractions + (xs.filter (outcomeFails f)).length
                   total_size_mb := st.stats.total_size_mb + sizeSumImgs f xs
                   filtered_logos :=
                     st.stats.filtered_logos + (xs.filter (outcomeFiltered f)).length } } := by
  induction xs with
  | nil =>
    intro p i st
    simp [processImages, imageNamesFrom, sizeSumImgs]
  | cons x rest ih =>
    intro p i st
    cases h : extractSingleImage f x with
    | silentSkip =>
      simp [processImages, h, applyOutcome, ih, imageNamesFrom, sizeSumImgs,
            outcomeSaves, outcomeFails, outcomeFiltered, List.filter_cons]
    | filtered =>
      simp [processImages, h, applyOutcome, ih, imageNamesFrom, sizeSumImgs,
            outcomeSaves, outcomeFails, outcomeFiltered, List.filter_cons,
            Nat.add_assoc, Nat.add_comm, Nat.add_left_comm]
    | errored =>
      simp [processImages, h, applyOutcome, ih, imageNamesFrom, sizeSumImgs,
            outcomeSaves, outcomeFails, outcomeFiltered, List.filter_cons,
            Nat.add_assoc, Nat.add_comm, Nat.add_left_comm]
    | save ext data =>
      simp [processImages, h, applyOutcome, ih, imageNamesFrom, sizeSumImgs,
            outcomeSaves, outcomeFails, outcomeFiltered, List.filter_cons,
            Nat.add_assoc, Nat.add_comm, Nat.add_left_comm, add_assoc]

theorem processPages_spec (f : Bool) (pages : List Page) :
    ∀ (p : Nat) (st : ExtractorState),
    processPages f p st pages =
      { extracted_images := st.extracted_images ++ pdfNamesFrom f p pages
        stats := { total_pages := st.stats.total_pages
                   total_images := st.stats.total_images + (pages.map (pageSaves f)).sum
                   successful_extractions :=
                     st.stats.successful_extractions + (pages.map (pageSaves f)).sum
                   failed_extractions :=
                     st.stats.failed_extractions + (pages.map (pageFails f)).sum
                   total_size_mb := st.stats.total_size_mb + (pages.map (pageSizeSum f)).sum
                   filtered_logos :=
                     st.stats.filtered_logos + (pages.map (pageFiltered f)).sum } } := by
  induction pages with
  | nil =>
    intro p st
    simp [processPages, pdfNamesFrom]
  | cons pg rest ih =>
    intro p st
    cases pg with
    | enumErr =>
      simp [processPages, processPage, ih, pdfNamesFrom, pageNames, pageSaves, pageFails,
            pageFiltered, pageSizeSum]
    | imgs xs =>
      simp [processPages, processPage, processImages_spec, ih, pdfNamesFrom, pageNames,
            pageSaves, pageFails, pageFiltered, pageSizeSum,
            Nat.add_assoc, add_assoc, List.append_assoc]

theorem extractImagesFromPdf_spec (pdf : Pdf) (f : Bool) (st : ExtractorState) :
    extractImagesFromPdf pdf f st =
      { extracted_images := st.extracted_images ++ pdfNames f pdf
        stats := { total_pages := pdf.length
                   total_images := st.stats.total_images + pdfSaves f pdf
                   successful_extractions := st.stats.successful_extractions + pdfSaves f pdf
                   failed_extractions := st.stats.failed_extractions + pdfFails f pdf
                   total_size_mb := st.stats.total_size_mb + pdfSizeSum f pdf
                   filtered_logos := st.stats.filtered_logos + pdfFiltered f pdf } } := by
  simp [extractImagesFromPdf, processPages_spec, pdfNames, pdfSaves, pdfFails,
        pdfFiltered, pdfSizeSum]

/-! ### Helper lemmas -/

theorem aspect_ratio_rat (w h : Nat) (hh : 0 < h) :
    ((4 : ℚ) / 5 ≤ (w : ℚ) / (h : ℚ) ∧ (w : ℚ) / (h : ℚ) ≤ 6 / 5)
      ↔ (4 * h ≤ 5 * w ∧ 5 * w ≤ 6 * h) := by
  have hq : (0 : ℚ) < (h : ℚ) := by exact_mod_cast hh
  rw [div_le_div_iff (by norm_num : (0 : ℚ) < 5) hq,
    div_le_div_iff hq (by norm_num : (0 : ℚ) < 5)]
  constructor
  · rintro ⟨h1, h2⟩
    constructor
    · exact_mod_cast (by linarith : (4 : ℚ) * h ≤ 5 * w)
    · exact_mod_cast (by linarith : (5 : ℚ) * w ≤ 6 * h)
  · rintro ⟨h1, h2⟩
    have h1' : (4 : ℚ) * h ≤ 5 * w := by exact_mod_cast h1
    have h2' : (5 : ℚ) * w ≤ 6 * h := by exact_mod_cast h2
    exact ⟨by linarith, by linarith⟩

theorem isLogoLike_eq (len : Nat) (img : DecodedImage) :
    isLogoLike len (some img)
      = ((decide (img.width < 100) || decide (img.height < 100))
         || (decide (4 * img.height ≤ 5 * img.width)
             && decide (5 * img.width ≤ 6 * img.height))
         || (decide (img.mode = "RGBA") || decide (img.mode = "LA")
             || decide (img.mode = "P"))
         || decide (len < 10 * 1024)) := by
  simp only [isLogoLike]
  split_ifs with hA hB hC hD <;> simp_all

theorem isLogoLike_iff_aux (len : Nat) (img : DecodedImage) :
    isLogoLike len (some img) = true ↔
      (img.width < 100 ∨ img.height < 100
       ∨ ((4 : ℚ) / 5 ≤ (img.width : ℚ) / (img.height : ℚ)
           ∧ (img.width : ℚ) / (img.height : ℚ) ≤ 6 / 5)
       ∨ img.mode = "RGBA" ∨ img.mode = "LA" ∨ img.mode = "P"
       ∨ len < 10 * 1024) := by
  rw [isLogoLike_eq]
  by_cases hzero : img.height = 0
  · simp [hzero]
  · rw [aspect_ratio_rat img.width img.height (Nat.pos_of_ne_zero hzero)]
    simp only [Bool.or_eq_true, Bool.and_eq_true, decide_eq_true_eq]
    tauto

theorem mem_writeFile (folder : List (String × List Nat)) (name : String) (data : List Nat)
    (x : String × List Nat) (hx : x ∈ writeFile folder name data) :
    x ∈ folder ∨ x = (name, data) := by
  unfold writeFile at hx
  split at hx
  · obtain ⟨y, hy, hxy⟩ := List.mem_map.1 hx
    by_cases hyn : y.1 = name
    · right
      rw [if_pos hyn] at hxy
      exact hxy.symm
    · left
      rw [if_neg hyn] at hxy
      exact hxy ▸ hy
  · rcases List.mem_append.1 hx with h | h
    · exact .inl h
    · exact .inr (by simpa using h)

theorem mem_applyWrites (ws : List (String × List Nat)) :
    ∀ (folder : List (String × List Nat)) (x : String × List Nat),
      x ∈ applyWrites folder ws → x ∈ folder ∨ x ∈ ws := by
  induction ws with
  | nil =>
    intro folder x hx
    exact .inl hx
  | cons w rest ih =>
    intro folder x hx
    obtain ⟨name, data⟩ := w
    rcases ih (writeFile folder name data) x hx with h | h
    · rcases mem_writeFile folder name data x h with h' | h'
      · exact .inl h'
      · exact .inr (by simp [h'])
    · exact .inr (List.mem_cons_of_mem _ h)

theorem pageWrites_shape (f : Bool) (xs : List XrefImage) :
    ∀ (p i : Nat) (x : String × List Nat), x ∈ pageWrites f p i xs →
      ∃ ig ext, x.1 = imageFilename p ig ext := by
  induction xs with
  | nil =>
    intro p i x hx
    simp [pageWrites] at hx
  | cons y rest ih =>
    intro p i x hx
    rcases List.mem_append.1 hx with h | h
    · cases ho : extractSingleImage f y with
      | save ext data =>
        simp [imageWrite, ho] at h
        exact ⟨i, ext, by simp [h]⟩
      | silentSkip => simp [imageWrite, ho] at h
      | filtered => simp [imageWrite, ho] at h
      | errored => simp [imageWrite, ho] at h
    · exact ih p (i + 1) x h

theorem pdfWritesFrom_shape (f : Bool) (pages : List Page) :
    ∀ (p : Nat) (x : String × List Nat), x ∈ pdfWritesFrom f p pages →
      ∃ pg ig ext, x.1 = imageFilename pg ig ext := by
  induction pages with
  | nil =>
    intro p x hx
    simp [pdfWritesFrom] at hx
  | cons page rest ih =>
    intro p x hx
    cases page with
    | enumErr => exact ih (p + 1) x hx
    | imgs xs =>
      rcases List.mem_append.1 hx with h | h
      · obtain ⟨ig, ext, he⟩ := pageWrites_shape f xs p 0 x h
        exact ⟨p, ig, ext, he⟩
      · exact ih (p + 1) x h

theorem pageEventsFrom_no_callback (p : Nat) (xs : List XrefImage) :
    ∀ i, (pageEventsFrom p i xs).countP isCallbackEv = 0 := by
  induction xs with
  | nil =>
    intro i
    simp [pageEventsFrom]
  | cons x rest ih =>
    intro i
    simp [pageEventsFrom, List.countP_cons, isCallbackEv, ih]

theorem pageEvents_no_callback (p : Nat) (pg : Page) :
    (pageEvents p pg).countP isCallbackEv = 0 := by
  cases pg <;> simp [pageEvents, pageEventsFrom_no_callback]

theorem traceFrom_countP (total : Nat) (hc : Bool) (pages : List Page) :
    ∀ i, (traceFrom total hc i pages).countP isCallbackEv
      = if hc then pages.length else 0 := by
  induction pages with
  | nil =>
    intro i
    simp [traceFrom]
  | cons pg rest ih =>
    intro i
    cases hc <;>
      simp [traceFrom, List.countP_append, pageEvents_no_callback, ih, isCallbackEv,
            List.countP_cons, Nat.add_comm]

theorem traceFrom_true_eq (total : Nat) (pages : List Page) :
    ∀ i, traceFrom total true i pages = traceCallbackBefore total i pages := by
  induction pages with
  | nil =>
    intro i
    rfl
  | cons pg rest ih =>
    intro i
    simp [traceFrom, traceCallbackBefore, ih]

/-! ### Concrete documents used as inputs -/

/-- A decodable 50x50 opaque (`"RGB"`) PNG of 2048 bytes: it passes the
format and size checks and is then filtered as a logo (width below 100). -/
def pngLogoImg : XrefImage :=
  XrefImage.good (List.replicate 2048 0) "png" (some ⟨50, 50, "RGB"⟩) false

/-- A decodable 800x600 `"RGB"` JPEG of 20480 bytes: kept — big, not
near-square (`5 * 800 > 6 * 600`), no alpha, above 10 KiB. -/
def bigJpegImg : XrefImage :=
  XrefImage.good (List.replicate 20480 1) "jpeg" (some ⟨800, 600, "RGB"⟩) false

/-- A kept 1024-byte `"jpg"` image whose bytes PIL cannot decode (so
`_is_logo_like` returns false and the image is saved). -/
def keeperImg : XrefImage :=
  XrefImage.good (List.replicate 1024 0) "jpg" none false

/-- A 1-page PDF whose only image is the filtered logo. -/
def logoOnlyPdf : Pdf := [Page.imgs [pngLogoImg]]

/-- The spec's scenario document: 3 pages, the logo PNG on page 1, the kept
JPEG on page 2, page 3 empty. -/
def scenarioPdf : Pdf :=
  [Page.imgs [pngLogoImg], Page.imgs [bigJpegImg], Page.imgs []]

/-- A 1-page PDF with a single image reference whose extraction returns a
falsy value; the reference is still enumerated by the page loop. -/
def cexPdf : Pdf := [Page.imgs [XrefImage.extractEmpty]]

/-- A 1-page PDF holding only `keeperImg`. -/
def keeperPdf : Pdf := [Page.imgs [keeperImg]]

theorem pngLogoImg_outcome : extractSingleImage true pngLogoImg = .filtered := by
  have hm : lowerStr "png" ∈ SUPPORTED_IMAGE_FORMATS := by decide
  simp [pngLogoImg, extractSingleImage, hm, isLogoLike, MIN_IMAGE_SIZE_KB,
    -List.reduceReplicate]

theorem bigJpegImg_outcome :
    extractSingleImage true bigJpegImg = .save "jpeg" (List.replicate 20480 1) := by
  have hm : "jpeg" ∈ SUPPORTED_IMAGE_FORMATS := by decide
  have hje : lowerStr "jpeg" = "jpeg" := by decide
  simp [bigJpegImg, extractSingleImage, hm, hje, isLogoLike, MIN_IMAGE_SIZE_KB,
    -List.reduceReplicate]

theorem keeperImg_outcome :
    extractSingleImage true keeperImg = .save "jpg" (List.replicate 1024 0) := by
  have hm : "jpg" ∈ SUPPORTED_IMAGE_FORMATS := by decide
  have hje : lowerStr "jpg" = "jpg" := by decide
  simp [keeperImg, extractSingleImage, hm, hje, isLogoLike, MIN_IMAGE_SIZE_KB,
    -List.reduceReplicate]

theorem outcomeSaves_eq (f : Bool) (x : XrefImage) :
    outcomeSaves f x = match extractSingleImage f x with
      | .save _ _ => true
      | _ => false := rfl

theorem outcomeFails_eq (f : Bool) (x : XrefImage) :
    outcomeFails f x = match extractSingleImage f x with
      | .errored => true
      | _ => false := rfl

theorem outcomeFiltered_eq (f : Bool) (x : XrefImage) :
    outcomeFiltered f x = match extractSingleImage f x with
      | .filtered => true
      | _ => false := rfl

theorem logoOnlyPdf_counts :
    pdfSaves true logoOnlyPdf = 0 ∧ pdfFails true logoOnlyPdf = 0
      ∧ pdfFiltered true logoOnlyPdf = 1 := by
  have h1 : outcomeSaves true pngLogoImg = false := by
    rw [outcomeSaves_eq, pngLogoImg_outcome]
  have h2 : outcomeFails true pngLogoImg = false := by
    rw [outcomeFails_eq, pngLogoImg_outcome]
  have h3 : outcomeFiltered true pngLogoImg = true := by
    rw [outcomeFiltered_eq, pngLogoImg_outcome]
  refine ⟨?_, ?_, ?_⟩ <;>
    simp only [pdfSaves, pdfFails, pdfFiltered, logoOnlyPdf, pageSaves, pageFails,
      pageFiltered, List.map_cons, List.map_nil, List.sum_cons, List.sum_nil,
      List.filter_cons, List.filter_nil, h1, h2, h3] <;> simp

theorem scenarioPdf_counts :
    pdfSaves true scenarioPdf = 1 ∧ pdfFails true scenarioPdf = 0
      ∧ pdfFiltered true scenarioPdf = 1 := by
  have hs1 : outcomeSaves true pngLogoImg = false := by
    rw [outcomeSaves_eq, pngLogoImg_outcome]
  have hs2 : outcomeSaves true bigJpegImg = true := by
    rw [outcomeSaves_eq, bigJpegImg_outcome]
  have hf1 : outcomeFails true pngLogoImg = false := by
    rw [outcomeFails_eq, pngLogoImg_outcome]
  have hf2 : outcomeFails true bigJpegImg = false := by
    rw [outcomeFails_eq, bigJpegImg_outcome]
  have hl1 : outcomeFiltered true pngLogoImg = true := by
    rw [outcomeFiltered_eq, pngLogoImg_outcome]
  have hl2 : outcomeFiltered true bigJpegImg = false := by
    rw [outcomeFiltered_eq, bigJpegImg_outcome]
  refine ⟨?_, ?_, ?_⟩ <;>
    simp only [pdfSaves, pdfFails, pdfFiltered, scenarioPdf, pageSaves, pageFails,
      pageFiltered, List.map_cons, List.map_nil, List.sum_cons, List.sum_nil,
      List.filter_cons, List.filter_nil, hs1, hs2, hf1, hf2, hl1, hl2] <;> simp

/-! ### Claims -/

/-- Claim C1, evidence of the code bug: on `logoOnlyPdf` with logo filtering
on, the run ends with `successful_extractions = 0`, `failed_extractions = 0`,
`filtered_logos = 1` but `total_images = 0`, so
`successful + failed + filtered ≤ total_images` is violated: the code bumps
`total_images` only when an image is saved (`src/extract.py:164`), although
the UI presents the field as "Images Found" (`src/ui_components.py:242`) and
the spec calls it `total_images_found`. -/
theorem stats_sum_can_exceed_total_images :
    ¬ ((extractImagesFromPdf logoOnlyPdf true initState).stats.successful_extractions
        + (extractImagesFromPdf logoOnlyPdf true initState).stats.failed_extractions
        + (extractImagesFromPdf logoOnlyPdf true initState).stats.filtered_logos
        ≤ (extractImagesFromPdf logoOnlyPdf true initState).stats.total_images) := by
  rw [extractImagesFromPdf_spec, logoOnlyPdf_counts.1, logoOnlyPdf_counts.2.1,
    logoOnlyPdf_counts.2.2]
  decide

/-- Claim C2, evidence of the code bug: on the spec's 3-page scenario the code
produces `total_pages = 3`, `successful_extractions = 1`,
`failed_extractions = 0`, `filtered_logos = 1` as the spec says, but
`total_images = 1`, not the claimed `2`: the filtered logo is never counted
into `total_images` (`src/extract.py:164` runs only in the save branch). -/
theorem scenario_stats_on_code :
    (extractImagesFromPdf scenarioPdf true initState).stats.total_pages = 3
    ∧ (extractImagesFromPdf scenarioPdf true initState).stats.successful_extractions = 1
    ∧ (extractImagesFromPdf scenarioPdf true initState).stats.failed_extractions = 0
    ∧ (extractImagesFromPdf scenarioPdf true initState).stats.filtered_logos = 1
    ∧ (extractImagesFromPdf scenarioPdf true initState).stats.total_images = 1 := by
  refine ⟨?_, ?_, ?_, ?_, ?_⟩
  · rw [extractImagesFromPdf_spec]
    rfl
  · rw [extractImagesFromPdf_spec, scenarioPdf_counts.1]
    rfl
  · rw [extractImagesFromPdf_spec, scenarioPdf_counts.2.1]
    rfl
  · rw [extractImagesFromPdf_spec, scenarioPdf_counts.2.2]
    rfl
  · rw [extractImagesFromPdf_spec, scenarioPdf_counts.1]
    rfl

/-- Claim C3 counterexample: on a 1-page PDF with one image reference, the
run trace invokes the progress callback BEFORE the page's image is processed
(`src/extract.py:70-74`), so it differs from the trace the claim describes,
in which each page's callback comes after that page's images. -/
theorem callback_not_invoked_after_page_images :
    runTrace cexPdf true = [Event.callback 1 1, Event.image 0 0]
    ∧ specTraceCallbackAfter cexPdf.length 0 cexPdf = [Event.image 0 0, Event.callback 1 1]
    ∧ runTrace cexPdf true ≠ specTraceCallbackAfter cexPdf.length 0 cexPdf := by
  decide

/-- Claim C3 as amended: when a progress callback is supplied it is invoked
exactly once per page, BEFORE that page's images are processed, with
arguments `(current_page, total_pages)` where `current_page` is the 1-based
page number; with no callback supplied there is no callback invocation. -/
theorem callback_once_per_page_before_images (pdf : Pdf) :
    runTrace pdf true = traceCallbackBefore pdf.length 0 pdf
    ∧ (runTrace pdf true).countP isCallbackEv = pdf.length
    ∧ (runTrace pdf false).countP isCallbackEv = 0 := by
  refine ⟨traceFrom_true_eq pdf.length pdf 0, ?_, ?_⟩
  · simpa [runTrace] using traceFrom_countP pdf.length true pdf 0
  · simpa [runTrace] using traceFrom_countP pdf.length false pdf 0

/-- Claim C4: on decodable bytes the logo classifier answers true exactly when
width or height is below 100 pixels, or the aspect ratio `w / h` lies in
`[0.8, 1.2]`, or the mode is `RGBA`, `LA` or `P`, or the byte length is below
10 KiB; and every image that reaches the classifier (supported format, not
undersized) and is classified a logo while filtering is enabled is skipped —
no file write — with exactly `filtered_logos` incremented. -/
theorem logo_classifier_iff_and_filtered (len : Nat) (img : DecodedImage) (p i : Nat) :
    (isLogoLike len (some img) = true ↔
      (img.width < 100 ∨ img.height < 100
       ∨ ((4 : ℚ) / 5 ≤ (img.width : ℚ) / (img.height : ℚ)
           ∧ (img.width : ℚ) / (img.height : ℚ) ≤ 6 / 5)
       ∨ img.mode = "RGBA" ∨ img.mode = "LA" ∨ img.mode = "P"
       ∨ len < 10 * 1024))
    ∧ (∀ (data : List Nat) (ext : String) (dec : Option DecodedImage) (sv : Bool),
        lowerStr ext ∈ SUPPORTED_IMAGE_FORMATS →
        MIN_IMAGE_SIZE_KB * 1024 ≤ data.length →
        isLogoLike data.length dec = true →
        extractSingleImage true (.good data ext dec sv) = .filtered
        ∧ imageWrite p i (extractSingleImage true (.good data ext dec sv)) = []
        ∧ ∀ st, applyOutcome p i st (extractSingleImage true (.good data ext dec sv))
            = { st with stats :=
                  { st.stats with filtered_logos := st.stats.filtered_logos + 1 } }) := by
  constructor
  · exact isLogoLike_iff_aux len img
  · intro data ext dec sv hsup hsize hlogo
    have hout : extractSingleImage true (.good data ext dec sv) = .filtered := by
      simp [extractSingleImage, hsup, Nat.not_lt.2 hsize, hlogo]
    refine ⟨hout, by simp [hout, imageWrite], fun st => by simp [hout, applyOutcome]⟩

/-- Witness for C4 at a concrete input: a 2048-byte 50x50 `RGB` PNG is
classified a logo and filtered. -/
theorem logo_classifier_iff_and_filtered_witness :
    extractSingleImage true
        (XrefImage.good (List.replicate 2048 0) "png" (some ⟨50, 50, "RGB"⟩) false)
      = .filtered :=
  ((logo_classifier_iff_and_filtered 2048 ⟨50, 50, "RGB"⟩ 0 0).2
    (List.replicate 2048 0) "png" (some ⟨50, 50, "RGB"⟩) false
    (by decide)
    (by rw [List.length_replicate]; norm_num [MIN_IMAGE_SIZE_KB])
    (by rw [List.length_replicate]; simp [isLogoLike])).1

/-- Claim C5: when the document-level open succeeds, the run returns normally
(never raises), each single-image failure adds exactly one to
`failed_extractions`, and the traversal still processes every other image:
the final counters are the sums over all pages of the per-image outcomes. -/
theorem single_image_failure_counted_and_run_continues (pdf : Pdf) (f : Bool)
    (st : ExtractorState) :
    extractImagesFromPdfE (some pdf) f st
      = .ok (extractImagesFromPdf pdf f st, (extractImagesFromPdf pdf f st).extracted_images)
    ∧ (extractImagesFromPdf pdf f st).stats.failed_extractions
      = st.stats.failed_extractions + pdfFails f pdf
    ∧ (extractImagesFromPdf pdf f st).stats.successful_extractions
      = st.stats.successful_extractions + pdfSaves f pdf
    ∧ (extractImagesFromPdf pdf f st).extracted_images
      = st.extracted_images ++ pdfNames f pdf
    ∧ (∀ (p i : Nat) (st' : ExtractorState),
        applyOutcome p i st' .errored
          = { st' with stats :=
                { st'.stats with
                    failed_extractions := st'.stats.failed_extractions + 1 } }) := by
  refine ⟨rfl, ?_, ?_, ?_, fun p i st' => rfl⟩
  · simp [extractImagesFromPdf_spec]
  · simp [extractImagesFromPdf_spec]
  · simp [extractImagesFromPdf_spec]

/-- Claim C6: an image whose byte length is below `MIN_IMAGE_SIZE_KB * 1024`
is never written — the outcome is the silent skip, which performs no file
write and leaves the extractor state (every counter and the image list)
unchanged. -/
theorem undersized_image_never_written (f : Bool) (p i : Nat) (data : List Nat)
    (ext : String) (dec : Option DecodedImage) (sv : Bool)
    (hsmall : data.length < MIN_IMAGE_SIZE_KB * 1024) :
    extractSingleImage f (.good data ext dec sv) = .silentSkip
    ∧ imageWrite p i (extractSingleImage f (.good data ext dec sv)) = []
    ∧ ∀ st, applyOutcome p i st (extractSingleImage f (.good data ext dec sv)) = st := by
  have hout : extractSingleImage f (.good data ext dec sv) = .silentSkip := by
    by_cases hm : lowerStr ext ∈ SUPPORTED_IMAGE_FORMATS
    · simp [extractSingleImage, hm, hsmall]
    · simp [extractSingleImage, hm]
  exact ⟨hout, by simp [hout, imageWrite], fun st => by simp [hout, applyOutcome]⟩

/-- Witness for C6 at a concrete input: a 1-byte `"png"` image is silently
skipped. -/
theorem undersized_image_never_written_witness :
    extractSingleImage true (XrefImage.good [0] "png" none false) = .silentSkip :=
  (undersized_image_never_written true 0 0 [0] "png" none false (by decide)).1

/-- Claim C7: an image whose lower-cased extension is outside
`SUPPORTED_IMAGE_FORMATS` is never written, for either value of the
`filter_logos` flag — the format check returns before logo filtering is
consulted, so the outcome is the silent skip with no write and no state
change. -/
theorem unsupported_format_never_written (f : Bool) (p i : Nat) (data : List Nat)
    (ext : String) (dec : Option DecodedImage) (sv : Bool)
    (hm : lowerStr ext ∉ SUPPORTED_IMAGE_FORMATS) :
    extractSingleImage f (.good data ext dec sv) = .silentSkip
    ∧ imageWrite p i (extractSingleImage f (.good data ext dec sv)) = []
    ∧ ∀ st, applyOutcome p i st (extractSingleImage f (.good data ext dec sv)) = st := by
  have hout : extractSingleImage f (.good data ext dec sv) = .silentSkip := by
    simp [extractSingleImage, hm]
  exact ⟨hout, by simp [hout, imageWrite], fun st => by simp [hout, applyOutcome]⟩

/-- Witness for C7 at a concrete input: a large logo-shaped `"webp"` image is
silently skipped even with filtering off. -/
theorem unsupported_format_never_written_witness :
    extractSingleImage false
        (XrefImage.good (List.replicate 2048 0) "webp" (some ⟨50, 50, "RGBA"⟩) false)
      = .silentSkip :=
  (unsupported_format_never_written false 0 0 (List.replicate 2048 0) "webp"
    (some ⟨50, 50, "RGBA"⟩) false (by decide)).1

/-- Claim C8: one pipeline run (clear the output folder, then extract) leaves
the folder in a state independent of its prior content, so re-running with
the same document and settings reproduces exactly the same files — same
names, same bytes — and nothing accumulates; every resulting file carries
the deterministic name `page{N}_img{M}.{ext}`. -/
theorem rerun_same_output_no_accumulation (pdf : Pdf) (f : Bool)
    (folderA folderB : List (String × List Nat)) :
    runPipeline pdf f folderA = runPipeline pdf f folderB
    ∧ runPipeline pdf f (runPipeline pdf f folderA) = runPipeline pdf f folderA
    ∧ (∀ x, x ∈ runPipeline pdf f folderA →
        x ∈ pdfWrites f pdf ∧ ∃ pg ig ext, x.1 = imageFilename pg ig ext) := by
  refine ⟨rfl, rfl, ?_⟩
  intro x hx
  have hmem : x ∈ pdfWrites f pdf := by
    rcases mem_applyWrites (pdfWrites f pdf) [] x hx with h | h
    · simp at h
    · exact h
  exact ⟨hmem, pdfWritesFrom_shape f pdf 0 x hmem⟩

/-- Witness for C8 at a concrete input: the single kept image of `keeperPdf`
ends up in the folder under the deterministic name `page1_img1.jpg`. -/
theorem rerun_same_output_no_accumulation_witness :
    (imageFilename 0 0 "jpg", List.replicate 1024 0) ∈ pdfWrites true keeperPdf
    ∧ ∃ pg ig ext,
        ((imageFilename 0 0 "jpg", List.replicate 1024 0) : String × List Nat).1
          = imageFilename pg ig ext :=
  (rerun_same_output_no_accumulation keeperPdf true [] []).2.2
    (imageFilename 0 0 "jpg", List.replicate 1024 0)
    (by
      simp only [runPipeline, pdfWrites, keeperPdf, pdfWritesFrom, pageWrites,
        keeperImg_outcome]
      simp only [imageWrite, List.append_nil, List.nil_append]
      simp only [applyWrites, writeFile, List.any_nil]
      simp)

/-- Claim C9: at every point of a run started from a fresh extractor — after
any number of full pages and any number of images of the next page —
`total_images` equals `successful_extractions`: both are incremented together
only in the save branch (`src/extract.py:163-164`), so `total_images` counts
saved images. -/
theorem total_images_eq_successful_every_point (pdf : Pdf) (f : Bool) (k j : Nat) :
    (partialRun pdf f k j).stats.total_images
      = (partialRun pdf f k j).stats.successful_extractions := by
  unfold partialRun
  cases hk : pdf.get? k with
  | none => simp [hk, processPages_spec, initState]
  | some pg =>
    cases pg with
    | enumErr => simp [hk, processPages_spec, initState]
    | imgs xs => simp [hk, processImages_spec, processPages_spec, initState]

/-- Claim C10: a second `extract_images_from_pdf` call on the same instance
does not reset state: the image list and the counters
`successful_extractions`, `failed_extractions`, `filtered_logos` and
`total_size_mb` keep accumulating on top of the first call's values, while
`total_pages` is overwritten with the new document's page count; only
`__init__` yields zeroed stats. -/
theorem second_call_accumulates_state (pdfA pdfB : Pdf) (fA fB : Bool) :
    (extractImagesFromPdf pdfB fB (extractImagesFromPdf pdfA fA initState)).extracted_images
      = (extractImagesFromPdf pdfA fA initState).extracted_images ++ pdfNames fB pdfB
    ∧ (extractImagesFromPdf pdfB fB (extractImagesFromPdf pdfA fA initState)).stats.successful_extractions
      = (extractImagesFromPdf pdfA fA initState).stats.successful_extractions + pdfSaves fB pdfB
    ∧ (extractImagesFromPdf pdfB fB (extractImagesFromPdf pdfA fA initState)).stats.failed_extractions
      = (extractImagesFromPdf pdfA fA initState).stats.failed_extractions + pdfFails fB pdfB
    ∧ (extractImagesFromPdf pdfB fB (extractImagesFromPdf pdfA fA initState)).stats.filtered_logos
      = (extractImagesFromPdf pdfA fA initState).stats.filtered_logos + pdfFiltered fB pdfB
    ∧ (extractImagesFromPdf pdfB fB (extractImagesFromPdf pdfA fA initState)).stats.total_size_mb
      = (extractImagesFromPdf pdfA fA initState).stats.total_size_mb + pdfSizeSum fB pdfB
    ∧ (extractImagesFromPdf pdfB fB (extractImagesFromPdf pdfA fA initState)).stats.total_images
      = (extractImagesFromPdf pdfA fA initState).stats.total_images + pdfSaves fB pdfB
    ∧ (extractImagesFromPdf pdfB fB (extractImagesFromPdf pdfA fA initState)).stats.total_pages
      = pdfB.length
    ∧ (extractImagesFromPdf pdfA fA initState).stats.total_pages = pdfA.length
    ∧ initState.stats.total_images = 0
    ∧ initState.stats.successful_extractions = 0
    ∧ initState.stats.failed_extractions = 0
    ∧ initState.stats.filtered_logos = 0
    ∧ initState.stats.total_size_mb = 0
    ∧ initState.extracted_images = [] := by
  simp [extractImagesFromPdf_spec, initState]

end PdfExtract
